import Mathlib

/-!
Verification of the chat-crawler repository: a shallow embedding of its
storage merge layer (IndexedDB channel upsert), crawl coordinator message
handlers, scroll-driven pagination loop, DOM message extractor, and the
SQLite export pipeline.  Each definition is translated from the JavaScript
source; stateful methods become explicit state-passing functions, DOM
queries become fields of an abstract element record (the repository spec
itself mandates this abstraction for the DOM-coupled parts), and the
wall clock is an explicit parameter.
-/

namespace CrawlerSpec

/-! ## JavaScript primitive helpers -/

/-- Truthiness of a JS value that is either a string, null or undefined:
`none` models null/undefined, and the empty string is falsy. -/
def jsTruthy : Option String → Bool
  | none => false
  | some s => s ≠ ""

/-- The JS idiom `x || null` applied to a string-or-null value:
falsy values (null, undefined, empty string) collapse to null. -/
def jsOrNull (o : Option String) : Option String :=
  if jsTruthy o then o else none

/-- Decimal digit test, matching the regex class `\d`. -/
def isDig (c : Char) : Bool := c.isDigit

/-- JS whitespace, as trimmed by `String.prototype.trim` (the exotic
Unicode space characters never occur in the scraped counts or names). -/
def jsWhitespace (c : Char) : Bool :=
  c = ' ' ∨ c = '\t' ∨ c = '\n' ∨ c = '\r' ∨ c = '\x0b' ∨ c = '\x0c'

/-- Trim JS whitespace from both ends of a character list. -/
def trimChars (cs : List Char) : List Char :=
  ((cs.dropWhile jsWhitespace).reverse.dropWhile jsWhitespace).reverse

/-- JS `s.trim()`. -/
def jsTrim (s : String) : String :=
  String.mk (trimChars s.toList)

/-- Accumulate a decimal numeral. -/
def digitsToNat (ds : List Char) : Nat :=
  ds.foldl (fun a c => a * 10 + (c.toNat - '0'.toNat)) 0

/-- Value of one hexadecimal digit, if it is one. -/
def hexDigitVal (c : Char) : Option Nat :=
  if '0' ≤ c ∧ c ≤ '9' then some (c.toNat - '0'.toNat)
  else if 'a' ≤ c ∧ c ≤ 'f' then some (c.toNat - 'a'.toNat + 10)
  else if 'A' ≤ c ∧ c ≤ 'F' then some (c.toNat - 'A'.toNat + 10)
  else none

/-- Accumulate a hexadecimal numeral. -/
def hexToNat (ds : List Char) : Nat :=
  ds.foldl (fun a c => a * 16 + (hexDigitVal c).getD 0) 0

/-- Strip a literal pattern from the front of the input, returning the rest. -/
def litMatch : List Char → List Char → Option (List Char)
  | [], cs => some cs
  | _ :: _, [] => none
  | p :: ps, c :: cs => if c = p then litMatch ps cs else none

/-- Take one or more decimal digits from the front (regex `\d+`, maximal
munch; the patterns in the source always follow `\d+` by a non-digit, so
maximal munch agrees with the backtracking regex engine). -/
def takeDigits1 (cs : List Char) : Option (List Char × List Char) :=
  let ds := cs.takeWhile isDig
  if ds.isEmpty then none else some (ds, cs.drop ds.length)

/-- Does the pattern occur anywhere in the input (JS `String.includes` /
unanchored regex search at the leftmost position)? -/
def hasSubAux (sub : List Char) : List Char → Bool
  | [] => (litMatch sub []).isSome
  | c :: rest => (litMatch sub (c :: rest)).isSome || hasSubAux sub rest

/-- JS `s.includes(sub)`. -/
def jsIncludes (s sub : String) : Bool :=
  hasSubAux sub.toList s.toList

/-- Run an anchored matcher at every position, leftmost match first
(JS `String.match` with an unanchored regex). -/
def scanFirst (f : List Char → Option String) : List Char → Option String
  | [] => f []
  | c :: rest =>
    match f (c :: rest) with
    | some r => some r
    | none => scanFirst f rest

/-- JS `parseInt` (radix unspecified): trim, optional sign, then a
hexadecimal numeral after a `0x`/`0X` prefix or a decimal numeral;
`none` models `NaN`. -/
def jsParseInt (s : String) : Option Int :=
  let cs := (jsTrim s).toList
  let signed : Bool × List Char :=
    match cs with
    | '-' :: r => (true, r)
    | '+' :: r => (false, r)
    | _ => (false, cs)
  let val : Option Nat :=
    match signed.2 with
    | '0' :: c :: r =>
      if c = 'x' ∨ c = 'X' then
        let hs := r.takeWhile (fun d => (hexDigitVal d).isSome)
        if hs.isEmpty then none else some (hexToNat hs)
      else
        some (digitsToNat (('0' :: c :: r).takeWhile isDig))
    | other =>
      let ds := other.takeWhile isDig
      if ds.isEmpty then none else some (digitsToNat ds)
  val.map (fun v => if signed.1 then -(v : Int) else (v : Int))

/-- JS `parseInt(t) || 0`: `NaN` (and `-0`) collapse to `0`. -/
def jsParseIntOr0 (s : String) : Int :=
  (jsParseInt s).getD 0

/-! ## Channel store: `IndexedDBManager.storeChannel` (part_000, lines 103-146)

A stored channel record.  Field values other than the primary key may be
null (`none`).  The store itself is a partial map from `channel_id`. -/

structure ChannelRec where
  channel_id : String
  server_id : Option String
  channel_name : Option String
  last_crawled_at : Option String
deriving DecidableEq

/-- An incoming (partial) channel record, as handed to `storeChannel`.
The outer `Option` on each non-key field models key presence (`none` =
the key is absent, i.e. `undefined` under the JS spread); the inner
`Option` models an explicit null.  For the primary key, absence and
null are collapsed since both are falsy. -/
structure ChannelPartial where
  channel_id : Option String
  server_id : Option (Option String)
  channel_name : Option (Option String)
  last_crawled_at : Option (Option String)
deriving DecidableEq

/-- A keyed channel store. -/
def ChannelStore := String → Option ChannelRec

/-- The merge performed by `storeChannel`:
`channelData = (...existing, ...channel, last_crawled_at: channel.last_crawled_at !== undefined ? channel.last_crawled_at : (existing?.last_crawled_at || null))`. -/
def mergeChannel (existing : Option ChannelRec) (cid : String) (c : ChannelPartial) :
    ChannelRec :=
  { channel_id := cid
    server_id :=
      match c.server_id with
      | some v => v
      | none => existing.bind ChannelRec.server_id
    channel_name :=
      match c.channel_name with
      | some v => v
      | none => existing.bind ChannelRec.channel_name
    last_crawled_at :=
      match c.last_crawled_at with
      | some v => v
      | none =>
        match existing with
        | some e => if jsTruthy e.last_crawled_at then e.last_crawled_at else none
        | none => none }

/-- `IndexedDBManager.storeChannel`: guard on a truthy `channel_id`, read
the existing record, merge, and put.  (The IndexedDB read-error fallback
path, which does a blind put, models an abnormal storage failure and is
not part of the functional behaviour.) -/
def storeChannel (st : ChannelStore) (c : ChannelPartial) : ChannelStore :=
  match c.channel_id with
  | none => st
  | some cid =>
    if cid = "" then st
    else fun k => if k = cid then some (mergeChannel (st cid) cid c) else st k

/-! ## Background `saveToIndexedDB` handler, channel portion (part_000, lines 650-656) -/

/-- The channel-relevant part of a `saveToIndexedDB` request. -/
structure SaveRequest where
  channel : Option ChannelPartial
  updateLastCrawled : Bool
deriving DecidableEq

/-- The channel portion of the `saveToIndexedDB` handler: when the request
carries a channel with a truthy id, and the `updateLastCrawled` flag is
set, the handler stamps `last_crawled_at` with the current time before
upserting. -/
def saveToIndexedDBChannel (st : ChannelStore) (req : SaveRequest) (now : String) :
    ChannelStore :=
  match req.channel with
  | none => st
  | some ch =>
    if jsTruthy ch.channel_id then
      let ch := if req.updateLastCrawled then { ch with last_crawled_at := some (some now) } else ch
      storeChannel st ch
    else st

/-- The scraper context (`ScraperService.context`): ids and names read
from the page, all nullable. -/
structure ScrapeContext where
  server_id : Option String
  server_name : Option String
  channel_id : Option String
  channel_name : Option String
deriving DecidableEq

/-- The `saveToIndexedDB` request emitted by `ScraperService.startCrawling`
(part_002, lines 685-706) for its initial extraction pass: the channel
record carries `channel_id`, `server_id` and `channel_name` (values may be
null) and no `last_crawled_at` key, and the request sets
`updateLastCrawled: true`. -/
def startCrawlingSaveRequest (ctx : ScrapeContext) : SaveRequest :=
  { updateLastCrawled := true
    channel := some
      { channel_id := ctx.channel_id
        server_id := some ctx.server_id
        channel_name := some ctx.channel_name
        last_crawled_at := none } }

/-- The channel portion of the background `stopCrawl` handler (part_000,
lines 558-569): fetch the current channel, stamp `last_crawled_at` with
the current time, and store it back (all fields of the fetched record are
present in the put). -/
def stopCrawlStamp (st : ChannelStore) (currentChannel : Option String) (now : String) :
    ChannelStore :=
  match currentChannel with
  | none => st
  | some cid =>
    match st cid with
    | none => st
    | some e =>
      storeChannel st
        { channel_id := some e.channel_id
          server_id := some e.server_id
          channel_name := some e.channel_name
          last_crawled_at := some (some now) }

/-! ## Crawl coordinator: background `startCrawl` handler (part_000, lines 512-547) -/

/-- The background crawl state singleton (`crawlState`). -/
structure CrawlState where
  isCrawling : Bool
  currentTabId : Option Nat
  currentChannel : Option String
  currentChannelName : Option String
  currentServerName : Option String
  messageCount : Nat
deriving DecidableEq

/-- `resetCrawlState` (part_000, lines 494-501). -/
def resetCrawlState : CrawlState :=
  { isCrawling := false
    currentTabId := none
    currentChannel := none
    currentChannelName := none
    currentServerName := none
    messageCount := 0 }

/-- A handler response, as built by `sendResponseHelper`. -/
structure HandlerResponse where
  success : Bool
  error : Option String
deriving DecidableEq

/-- The active browser tab, as returned by the tabs query. -/
structure BrowserTab where
  id : Nat
  url : Option String
deriving DecidableEq

/-- The `startCrawl` handler.  Environment inputs: the active-tab query
result, whether forwarding the start message to the content script
succeeds, and the exception message when it does not.  Returns the new
crawl state and the response sent back. -/
def startCrawlHandler (s : CrawlState) (tab : Option BrowserTab)
    (sendOk : Bool) (sendErrMsg : String) : CrawlState × HandlerResponse :=
  if s.isCrawling then
    (s, { success := false, error := some "Crawler is already running" })
  else
    match tab with
    | none => (s, { success := false, error := some "Please navigate to a Discord channel first" })
    | some t =>
      match t.url with
      | none => (s, { success := false, error := some "Please navigate to a Discord channel first" })
      | some u =>
        if ¬ jsIncludes u "discord.com" then
          (s, { success := false, error := some "Please navigate to a Discord channel first" })
        else
          let s1 := { s with isCrawling := true, currentTabId := some t.id, messageCount := 0 }
          if sendOk then (s1, { success := true, error := none })
          else (resetCrawlState,
                { success := false, error := some ("Failed to start crawler: " ++ sendErrMsg) })

/-! ## Pagination: `performScrollCycle` (part_002, lines 606-651)

One cycle of the cooperative scroll loop, as a pure step function.  The
per-step environment says whether the scroll container is present (it is
queried both by `scrollUp` and by the at-top check within one cycle), the
scroll position observed at the at-top check, and the size of the
processed-id set after the settle delay. -/

/-- The scraper state touched by the scroll loop.  `processedCount` is
`processedMessageIds.size` at the start of the cycle. -/
structure ScrollState where
  isCrawling : Bool
  noNewMessagesCount : Nat
  lastMessageCount : Nat
  processedCount : Nat
deriving DecidableEq

/-- Per-cycle environment. -/
structure ScrollEnv where
  containerPresent : Bool
  scrollTop : Nat
  afterCount : Nat
deriving DecidableEq

/-- `performScrollCycle`, with `NO_NEW_MESSAGES_THRESHOLD = 3` and the
at-top tolerance `scrollTop <= 10` inlined from the source.  Stopping the
crawl (`stopCrawling`) is modelled by clearing `isCrawling`. -/
def performScrollCycle (s : ScrollState) (env : ScrollEnv) : ScrollState :=
  if ¬ s.isCrawling then s
  else
    let beforeCount := s.processedCount
    let scrolled := env.containerPresent
    let s1 := if ¬ scrolled then { s with noNewMessagesCount := s.noNewMessagesCount + 1 } else s
    if ¬ scrolled ∧ 3 ≤ s1.noNewMessagesCount then { s1 with isCrawling := false }
    else
      let afterCount := env.afterCount
      let s2 := { s1 with processedCount := afterCount }
      if afterCount = beforeCount then
        let s3 := { s2 with noNewMessagesCount := s2.noNewMessagesCount + 1 }
        let isAtTop := env.containerPresent ∧ env.scrollTop ≤ 10
        if 3 ≤ s3.noNewMessagesCount ∧ isAtTop then { s3 with isCrawling := false }
        else s3
      else
        { s2 with noNewMessagesCount := 0, lastMessageCount := afterCount }

/-! ## Extractor: `ScraperService` parsing helpers (part_002)

DOM elements are abstracted, as the repository spec directs, to a record
of the observations the scraper makes of them.  Query chains that differ
only in which equivalent node they pick are collapsed to a single field
(noted on each field). -/

/-- One emoji image inside the reactions container
(`img.emoji[data-type="emoji"]`).  `reactionCountText` is the text of the
`reactionCount` element inside the enclosing single-reaction element, when
both are found; `none` when either lookup fails (in which case the source
takes a count of 0). -/
structure EmojiImg where
  dataName : Option String
  reactionCountText : Option String
deriving DecidableEq

/-- An abstract candidate message element.  Field-to-query mapping:
* `idAttr` — the `id` attribute;
* `avatarImgSrc` — `src` of the avatar image (the header check, the
  user-id extraction and the avatar-url extraction all query an
  `img` whose `src` contains `avatars/`; they are collapsed to one node);
* `usernameHeaderSpan` — a `span` with id prefixed `message-username-`
  exists;
* `headerClassWithUsername` — an element with a `header` class containing
  a `span` with a `username` class exists;
* `usernameSpanText` — text of the `span` with id prefixed `username`;
* `usernameFallbackText` — the first nonempty trimmed text among the
  username fallback selectors, if any;
* `contentText` — the resolved content string of the
  `div` with id prefixed `message-content-` (its trimmed text, falling
  back to its trimmed markup, falling back to the empty string);
* `contentFallbackText` — same resolution for the first matching content
  fallback selector, when the primary div is absent;
* `timeDatetime` — the `datetime` attribute found by the timestamp
  queries (primary `time` element or class fallback);
* `attachmentsPresent` — any attachment/embed/image selector matches;
* `reactionMarkers` — `some imgs` when a reactions container is found,
  with its emoji images in order. -/
structure Element where
  tagName : String
  idAttr : Option String
  avatarImgSrc : Option String
  usernameHeaderSpan : Bool
  headerClassWithUsername : Bool
  usernameSpanText : Option String
  usernameFallbackText : Option String
  contentText : Option String
  contentFallbackText : Option String
  timeDatetime : Option String
  attachmentsPresent : Bool
  reactionMarkers : Option (List EmojiImg)
deriving DecidableEq

/-- Matcher for `guilds\/\d+\/users\/(\d+)\/avatars\/` at one position. -/
def guildAvatarAt (cs : List Char) : Option String := do
  let cs ← litMatch "guilds/".toList cs
  let (_, cs) ← takeDigits1 cs
  let cs ← litMatch "/users/".toList cs
  let (uid, cs) ← takeDigits1 cs
  let _ ← litMatch "/avatars/".toList cs
  pure (String.mk uid)

/-- Matcher for `avatars\/(\d+)\/` at one position. -/
def plainAvatarAt (cs : List Char) : Option String := do
  let cs ← litMatch "avatars/".toList cs
  let (uid, cs) ← takeDigits1 cs
  let _ ← litMatch "/".toList cs
  pure (String.mk uid)

/-- `ScraperService.extractUserIdFromAvatar` on an avatar `src` string:
try the guild-avatar pattern first, then the plain avatar pattern. -/
def extractUserIdFromAvatar (src : String) : Option String :=
  match scanFirst guildAvatarAt src.toList with
  | some uid => some uid
  | none => scanFirst plainAvatarAt src.toList

/-- Anchored matcher for `^chat-messages-\d+-(\d+)$`. -/
def chatMessagesId (id : String) : Option String := do
  let cs ← litMatch "chat-messages-".toList id.toList
  let (_, cs) ← takeDigits1 cs
  let cs ← litMatch "-".toList cs
  let (mid, cs) ← takeDigits1 cs
  if cs.isEmpty then pure (String.mk mid) else none

/-- `ScraperService.extractMessageId`: falsy id attribute rejects; a
match of the `chat-messages-{channel}-{message}` pattern yields the
captured message number; otherwise the full raw id is returned. -/
def extractMessageId (e : Element) : Option String :=
  match e.idAttr with
  | none => none
  | some id =>
    if id = "" then none
    else
      match chatMessagesId id with
      | some mid => some mid
      | none => some id

/-- `ScraperService.hasMessageHeader`: avatar image, username header span,
or a header-class element containing a username span. -/
def hasMessageHeader (e : Element) : Bool :=
  e.avatarImgSrc.isSome || e.usernameHeaderSpan || e.headerClassWithUsername

/-- `ScraperService.extractUsername`: the username span wins (its trimmed
text, coerced falsy-to-null), otherwise the fallback-selector result. -/
def extractUsername (e : Element) : Option String :=
  match e.usernameSpanText with
  | some t => jsOrNull (some (jsTrim t))
  | none => e.usernameFallbackText

/-- `ScraperService.extractAvatarUrl`: the avatar image `src`, if any. -/
def extractAvatarUrl (e : Element) : Option String :=
  e.avatarImgSrc

/-- `ScraperService.extractContent`: the primary content div if present,
else the first fallback, else the empty string. -/
def extractContent (e : Element) : String :=
  match e.contentText with
  | some t => t
  | none => e.contentFallbackText.getD ""

/-- `ScraperService.extractTimestamp`: the discovered `datetime`
attribute, else the current wall-clock time (explicit `now`). -/
def extractTimestamp (e : Element) (now : String) : String :=
  e.timeDatetime.getD now

/-- `ScraperService.hasAttachments`. -/
def hasAttachments (e : Element) : Bool :=
  e.attachmentsPresent

/-- An extracted reaction entry. -/
structure Reaction where
  emoji : String
  count : Int
deriving DecidableEq

/-- The count of one reaction marker:
`countEl ? parseInt(countEl.textContent.trim()) || 0 : 0`. -/
def markerCount (img : EmojiImg) : Int :=
  match img.reactionCountText with
  | some t => jsParseIntOr0 (jsTrim t)
  | none => 0

/-- Processing of one emoji image inside `extractReactions`: skip when the
`data-name` is falsy or the count is 0, else emit the pair. -/
def reactOf (img : EmojiImg) : Option Reaction :=
  match img.dataName with
  | none => none
  | some nm =>
    if nm = "" then none
    else
      let count := markerCount img
      if count = 0 then none else some { emoji := nm, count := count }

/-- `ScraperService.extractReactions`: empty when no reactions container
is found, otherwise the surviving markers in order. -/
def extractReactions (e : Element) : List Reaction :=
  match e.reactionMarkers with
  | none => []
  | some imgs => imgs.filterMap reactOf

/-- An extracted message record. -/
structure MsgOut where
  message_id : String
  channel_id : Option String
  user_id : Option String
  timestamp : String
  content : String
  has_attachments : Bool
  reactions : List Reaction
deriving DecidableEq

/-- An extracted user record. -/
structure UserOut where
  user_id : String
  username : String
  avatar_url : Option String
deriving DecidableEq

/-- `username || 'Unknown'`. -/
def jsUsernameOr (o : Option String) : String :=
  match jsOrNull o with
  | some u => u
  | none => "Unknown"

/-- The avatar-based user-id resolution inside `parseMessage`:
`avatarImg ? this.extractUserIdFromAvatar(avatarImg) : null`. -/
def avatarUserId (e : Element) : Option String :=
  match e.avatarImgSrc with
  | some src => extractUserIdFromAvatar src
  | none => none

/-- `ScraperService.parseMessage` (part_002, lines 398-475).  The
session-local dedup set `processedMessageIds` is passed and returned
explicitly; `channelId` is `this.context.channel_id` and `now` the wall
clock.  Returns the optional (message, user) pair and the updated set. -/
def parseMessage (e : Element) (lastSeenAuthorId : Option String)
    (pids : List String) (channelId : Option String) (now : String) :
    Option (MsgOut × Option UserOut) × List String :=
  if e.tagName ≠ "LI" then (none, pids)
  else
    match extractMessageId e with
    | none => (none, pids)
    | some mid =>
      if mid ∈ pids then (none, pids)
      else
        let hasHeader := hasMessageHeader e
        let user_id : Option String := if hasHeader then avatarUserId e else lastSeenAuthorId
        let username : Option String :=
          if hasHeader then extractUsername e else jsOrNull (extractUsername e)
        let avatar_url : Option String :=
          if hasHeader then extractAvatarUrl e else jsOrNull (extractAvatarUrl e)
        let message : MsgOut :=
          { message_id := mid
            channel_id := channelId
            user_id := user_id
            timestamp := extractTimestamp e now
            content := extractContent e
            has_attachments := hasAttachments e
            reactions := extractReactions e }
        let user : Option UserOut :=
          if jsTruthy user_id then
            some { user_id := user_id.getD ""
                   username := jsUsernameOr username
                   avatar_url := jsOrNull avatar_url }
          else none
        (some (message, user), mid :: pids)

/-- The accumulator of `extractExistingMessages`. -/
structure ExtractState where
  messages : List MsgOut
  users : List UserOut
  lastSeenAuthorId : Option String
  pids : List String
deriving DecidableEq

/-- One iteration of the `extractExistingMessages` loop (part_002, lines
494-516): parse with the running `lastSeenAuthorId`; on success append the
message, update `lastSeenAuthorId` when the parsed message carries a
truthy `user_id`, and record the user when present, keyed by `user_id`
(first occurrence wins). -/
def extractStep (channelId : Option String) (now : String)
    (st : ExtractState) (e : Element) : ExtractState :=
  let parsed := parseMessage e st.lastSeenAuthorId st.pids channelId now
  match parsed.1 with
  | none => { st with pids := parsed.2 }
  | some (msg, usr) =>
    let lastSeen := if jsTruthy msg.user_id then msg.user_id else st.lastSeenAuthorId
    let users :=
      match usr with
      | none => st.users
      | some u =>
        if u.user_id ≠ "" ∧ ¬ st.users.any (fun v => v.user_id = u.user_id) then
          st.users ++ [u]
        else st.users
    { messages := st.messages ++ [msg]
      users := users
      lastSeenAuthorId := lastSeen
      pids := parsed.2 }

/-- `ScraperService.extractExistingMessages`: the chat list is `none` when
the message container is missing; otherwise fold over its message list
items.  This runs right after `startCrawling` cleared the session dedup
set, so the fold starts from the empty set. -/
def extractExistingMessages (chatList : Option (List Element))
    (channelId : Option String) (now : String) : List MsgOut × List UserOut :=
  match chatList with
  | none => ([], [])
  | some elems =>
    let st := elems.foldl (extractStep channelId now)
      { messages := [], users := [], lastSeenAuthorId := none, pids := [] }
    (st.messages, st.users)

/-! ## Exporter: `exportDatabaseFromIndexedDB` (part_001)

The snapshot rows as read back from the keyed store.  `none` on a string
field models a null/absent/non-string JS value (the exporter checks
`typeof === 'string'` where it matters); a null list entry is folded into
a record whose key field is `none`, which the exporter skips the same
way.  The SQLite tables are modelled as row lists with the autoincrement
surrogate id equal to the insertion rank (starting at 1); a uniqueness
violation makes the insert throw, which the source catches and ignores. -/

structure UserIn where
  user_id : Option String
  username : Option String
deriving DecidableEq

structure ChanIn where
  channel_id : Option String
  server_id : Option String
  channel_name : Option String
deriving DecidableEq

structure MsgIn where
  message_id : Option String
  channel_id : Option String
  user_id : Option String
  content : Option String
  timestamp : Option String
  has_attachments : Bool
  reactions : Option (List Reaction)
deriving DecidableEq

/-- The full snapshot handed to the exporter (servers are not read by the
export function and are omitted). -/
structure Snapshot where
  channels : List ChanIn
  users : List UserIn
  messages : List MsgIn
deriving DecidableEq

structure ChannelRow where
  id : Nat
  name : String
  url : String
deriving DecidableEq

structure UserRow where
  user_id : String
  username : Option String
deriving DecidableEq

structure MessageRow where
  id : Nat
  channel_id : Nat
  message_id : String
  user_id : Option String
  content : String
  timestamp : Option String
  attachments : String
  reactions : Option String
deriving DecidableEq

/-- The exported artifact: the three normalized tables. -/
structure ExportDb where
  channels : List ChannelRow
  users : List UserRow
  messages : List MessageRow
deriving DecidableEq

/-- One user insert: skip null entries and non-string ids; a duplicate
primary key makes the insert throw (caught, skipped). -/
def insertUserStep (rows : List UserRow) (u : UserIn) : List UserRow :=
  match u.user_id with
  | none => rows
  | some uid =>
    if rows.any (fun r => r.user_id = uid) then rows
    else rows ++ [{ user_id := uid, username := jsOrNull u.username }]

/-- `JSON.stringify` of one reaction object (key order follows property
order; string escaping is not exercised by plain emoji names). -/
def serializeReaction (r : Reaction) : String :=
  "\x7b\"emoji\":\"" ++ r.emoji ++ "\",\"count\":" ++ toString r.count ++ "\x7d"

/-- `JSON.stringify` of a reactions array. -/
def serializeReactions (l : List Reaction) : String :=
  "[" ++ String.intercalate "," (l.map serializeReaction) ++ "]"

/-- One channel insert: skip entries with a falsy server or channel id;
build the discord URL; coerce the name; on a `UNIQUE(url)` violation the
insert throws (caught) and the surrogate mapping is left untouched;
otherwise insert and map the source channel id to the fresh surrogate id
found by the post-insert lookup (`Map.set` semantics: the latest binding
wins, modelled by consing onto an association list). -/
def insertChannelStep (acc : List ChannelRow × List (String × Nat)) (c : ChanIn) :
    List ChannelRow × List (String × Nat) :=
  if jsTruthy c.server_id ∧ jsTruthy c.channel_id then
    let sid := c.server_id.getD ""
    let cid := c.channel_id.getD ""
    let url := "https://discord.com/channels/" ++ sid ++ "/" ++ cid
    let name :=
      match c.channel_name with
      | some s => if jsTrim s = "" then "Unknown" else jsTrim s
      | none => "Unknown"
    if acc.1.any (fun r => r.url = url) then acc
    else
      (acc.1 ++ [{ id := acc.1.length + 1, name := name, url := url }],
       (cid, acc.1.length + 1) :: acc.2)
  else acc

/-- The channel pass: rows plus the source-channel-id → surrogate map. -/
def insertChannels (cs : List ChanIn) : List ChannelRow × List (String × Nat) :=
  cs.foldl insertChannelStep ([], [])

/-- One message insert over (rows, exportedCount): skip falsy ids, skip
when the channel has no surrogate mapping, serialize reactions, coerce
content and timestamp, and insert unless `(channel_id, message_id)`
already exists (uniqueness violation, caught). -/
def insertMsgStep (chMap : List (String × Nat)) (acc : List MessageRow × Nat)
    (m : MsgIn) : List MessageRow × Nat :=
  if jsTruthy m.message_id ∧ jsTruthy m.channel_id then
    match List.lookup (m.channel_id.getD "") chMap with
    | none => acc
    | some chid =>
      let mid := m.message_id.getD ""
      let reactionsJson :=
        match m.reactions with
        | some l => if 0 < l.length then some (serializeReactions l) else none
        | none => none
      let row : MessageRow :=
        { id := acc.1.length + 1
          channel_id := chid
          message_id := mid
          user_id := jsOrNull m.user_id
          content := m.content.getD ""
          timestamp := m.timestamp
          attachments := if m.has_attachments then "Yes" else ""
          reactions := reactionsJson }
      if acc.1.any (fun r => r.channel_id = chid ∧ r.message_id = mid) then acc
      else (acc.1 ++ [row], acc.2 + 1)
  else acc

/-- The surrogate map built for a snapshot. -/
def exportChannelMap (d : Snapshot) : List (String × Nat) :=
  (insertChannels d.channels).2

/-- The message pass for a snapshot. -/
def exportMessages (d : Snapshot) : List MessageRow × Nat :=
  d.messages.foldl (insertMsgStep (exportChannelMap d)) ([], 0)

/-- Is a snapshot message actually insertable: truthy ids and a surrogate
mapping for its channel. -/
def msgInsertable (chMap : List (String × Nat)) (m : MsgIn) : Bool :=
  jsTruthy m.message_id && jsTruthy m.channel_id &&
    (List.lookup (m.channel_id.getD "") chMap).isSome

/-- `exportDatabaseFromIndexedDB`: fail upfront on an empty snapshot
(`messages` missing or empty), run the three passes, fail when nothing
was inserted, otherwise return the normalized database. -/
def exportDatabaseFromIndexedDB (d : Snapshot) : Except String ExportDb :=
  if d.messages.isEmpty then .error "No data to export"
  else
    let users := d.users.foldl insertUserStep []
    let channels := insertChannels d.channels
    let msgs := d.messages.foldl (insertMsgStep channels.2) ([], 0)
    if msgs.2 = 0 then .error "No valid messages could be exported"
    else .ok { channels := channels.1, users := users, messages := msgs.1 }

/-! ## Concrete fixtures used by the witnesses -/

/-- A store holding one channel, last crawled on 2023-01-01. -/
def fixStore : ChannelStore := fun k =>
  if k = "111" then
    some { channel_id := "111", server_id := some "900",
           channel_name := some "general", last_crawled_at := some "2023-01-01T00:00:00.000Z" }
  else none

/-- A partial upsert of the same channel carrying no `last_crawled_at`. -/
def fixPartial : ChannelPartial :=
  { channel_id := some "111", server_id := none, channel_name := none, last_crawled_at := none }

/-- A scraper context on that channel. -/
def fixCtx : ScrapeContext :=
  { server_id := some "900", server_name := some "My Server",
    channel_id := some "111", channel_name := some "general" }

/-- A busy crawl state. -/
def fixBusy : CrawlState :=
  { isCrawling := true, currentTabId := some 7, currentChannel := some "111",
    currentChannelName := some "general", currentServerName := some "My Server",
    messageCount := 42 }

/-- A scroll state two no-growth steps into a stall. -/
def fixScrollS : ScrollState :=
  { isCrawling := true, noNewMessagesCount := 2, lastMessageCount := 5, processedCount := 5 }

/-- A scroll environment at the top with no new messages. -/
def fixScrollE : ScrollEnv :=
  { containerPresent := true, scrollTop := 0, afterCount := 5 }

/-- Two well-formed snapshot users. -/
def fixUsers : List UserIn :=
  [{ user_id := some "1", username := some "alice" },
   { user_id := some "2", username := some "bob" }]

/-- A well-formed snapshot channel. -/
def fixChan : ChanIn :=
  { channel_id := some "100", server_id := some "200", channel_name := some "general" }

/-- A valid snapshot message in channel 100. -/
def fixMsg1 : MsgIn :=
  { message_id := some "m1", channel_id := some "100", user_id := some "1",
    content := some "hi", timestamp := some "2024-01-01T00:00:00.000Z",
    has_attachments := false, reactions := some [{ emoji := "thumbsup", count := 2 }] }

/-- A second valid snapshot message in channel 100. -/
def fixMsg2 : MsgIn :=
  { message_id := some "m2", channel_id := some "100", user_id := none,
    content := none, timestamp := none, has_attachments := true, reactions := none }

/-- An orphaned snapshot message: channel 999 has no surrogate mapping. -/
def fixMsg3 : MsgIn :=
  { message_id := some "m3", channel_id := some "999", user_id := some "2",
    content := some "orphan", timestamp := some "2024-01-02T00:00:00.000Z",
    has_attachments := false, reactions := none }

/-- The C5 snapshot: 2 users, 1 channel, 3 messages of which one is
orphaned. -/
def fixSnap : Snapshot :=
  { channels := [fixChan], users := fixUsers, messages := [fixMsg1, fixMsg2, fixMsg3] }

/-- A snapshot with no messages at all. -/
def fixSnapEmpty : Snapshot :=
  { channels := [], users := [], messages := [] }

/-- A non-empty snapshot in which no message is exportable. -/
def fixSnapOrphan : Snapshot :=
  { channels := [], users := [], messages := [fixMsg3] }

/-- A header-bearing element whose avatar resolves to user 42. -/
def fixElemHeader : Element :=
  { tagName := "LI", idAttr := some "chat-messages-100-200",
    avatarImgSrc := some "https://cdn.discordapp.com/avatars/42/abc.webp",
    usernameHeaderSpan := true, headerClassWithUsername := false,
    usernameSpanText := some "Alice", usernameFallbackText := none,
    contentText := some "hello", contentFallbackText := none,
    timeDatetime := some "2024-01-01T00:00:00.000Z",
    attachmentsPresent := false, reactionMarkers := none }

/-- A header-less (grouped) continuation element. -/
def fixElemGrouped : Element :=
  { tagName := "LI", idAttr := some "chat-messages-100-201",
    avatarImgSrc := none, usernameHeaderSpan := false,
    headerClassWithUsername := false, usernameSpanText := none,
    usernameFallbackText := none, contentText := some "again",
    contentFallbackText := none, timeDatetime := none,
    attachmentsPresent := false, reactionMarkers := none }

/-- A header-bearing element (username span) with no resolvable avatar
user id. -/
def fixElemNoResolve : Element :=
  { tagName := "LI", idAttr := some "chat-messages-100-202",
    avatarImgSrc := none, usernameHeaderSpan := true,
    headerClassWithUsername := false, usernameSpanText := some "Ghost",
    usernameFallbackText := none, contentText := some "mystery",
    contentFallbackText := none, timeDatetime := none,
    attachmentsPresent := false, reactionMarkers := none }

/-- An accumulator state with a previously seen author. -/
def fixExtractState : ExtractState :=
  { messages := [], users := [], lastSeenAuthorId := some "7", pids := [] }

/-- A bare message element used for the dedup witness. -/
def fixElemDup : Element :=
  { tagName := "LI", idAttr := some "chat-messages-100-300",
    avatarImgSrc := none, usernameHeaderSpan := false,
    headerClassWithUsername := false, usernameSpanText := none,
    usernameFallbackText := none, contentText := none,
    contentFallbackText := none, timeDatetime := none,
    attachmentsPresent := false, reactionMarkers := none }

/-- A non-message-shaped element (not a list item). -/
def fixElemNotLI : Element :=
  { tagName := "DIV", idAttr := some "chat-messages-100-301",
    avatarImgSrc := none, usernameHeaderSpan := false,
    headerClassWithUsername := false, usernameSpanText := none,
    usernameFallbackText := none, contentText := none,
    contentFallbackText := none, timeDatetime := none,
    attachmentsPresent := false, reactionMarkers := none }

/-- An element whose DOM id does not match the chat-messages pattern. -/
def fixElemRawId : Element :=
  { tagName := "LI", idAttr := some "some-random-id",
    avatarImgSrc := none, usernameHeaderSpan := false,
    headerClassWithUsername := false, usernameSpanText := none,
    usernameFallbackText := none, contentText := none,
    contentFallbackText := none, timeDatetime := none,
    attachmentsPresent := false, reactionMarkers := none }

/-- A reaction marker with rendered count 1. -/
def fixEmojiOne : EmojiImg := { dataName := some "thumbsup", reactionCountText := some "1" }

/-- A reaction marker with rendered count 0. -/
def fixEmojiZero : EmojiImg := { dataName := some "zero", reactionCountText := some "0" }

/-- An element carrying both reaction markers. -/
def fixReactElem : Element :=
  { tagName := "LI", idAttr := some "chat-messages-100-400",
    avatarImgSrc := none, usernameHeaderSpan := false,
    headerClassWithUsername := false, usernameSpanText := none,
    usernameFallbackText := none, contentText := none,
    contentFallbackText := none, timeDatetime := none,
    attachmentsPresent := false,
    reactionMarkers := some [fixEmojiZero, fixEmojiOne] }

/-! ## Claim theorems -/

/-- Claim C1 (code bug evidence).  The claim says `last_crawled_at`
changes only when a crawl session completes or is explicitly stopped, and
that no intermediate upsert during a running crawl changes it unless the
incoming record explicitly supplies it.  The code violates this: the
initial `saveToIndexedDB` batch that `ScraperService.startCrawling` sends
at the very start of a session carries `updateLastCrawled: true` while
supplying no `last_crawled_at` in the channel record, so the handler
stamps the field with the current time at crawl start — even though the
handler's own comment reserves that flag for crawl completion.  This
theorem evaluates the modelled pipeline at that failing input: the
incoming record has no `last_crawled_at` key, yet the stored value is
overwritten from the 2023 timestamp to the (current) 2024 one. -/
theorem c1_start_batch_overwrites_last_crawled_at :
    ((startCrawlingSaveRequest fixCtx).channel.map ChannelPartial.last_crawled_at
       = some none)
    ∧ (startCrawlingSaveRequest fixCtx).updateLastCrawled = true
    ∧ (fixStore "111").map ChannelRec.last_crawled_at
       = some (some "2023-01-01T00:00:00.000Z")
    ∧ ((saveToIndexedDBChannel fixStore (startCrawlingSaveRequest fixCtx)
          "2024-06-01T00:00:00.000Z") "111").map ChannelRec.last_crawled_at
       = some (some "2024-06-01T00:00:00.000Z") := by
  refine ⟨rfl, rfl, by decide, by decide⟩

/-- Claim C3: a `startCrawl` request while `isCrawling = true` is
rejected with the busy error and the whole crawl state — in particular
`currentChannel` — is returned unchanged. -/
theorem c3_busy_start_rejected (s : CrawlState) (tab : Option BrowserTab)
    (sendOk : Bool) (sendErrMsg : String) (h : s.isCrawling = true) :
    startCrawlHandler s tab sendOk sendErrMsg
      = (s, { success := false, error := some "Crawler is already running" }) := by
  simp [startCrawlHandler, h]

/-- Witness for C3 at a concrete busy state. -/
theorem c3_busy_start_rejected_witness :
    startCrawlHandler fixBusy none false "boom"
      = (fixBusy, { success := false, error := some "Crawler is already running" }) :=
  c3_busy_start_rejected fixBusy none false "boom" rfl

/-- Claim C4: the channel upsert is merge-on-write and idempotent with
respect to `last_crawled_at`.  Upserting the same partial record twice,
with no explicit `last_crawled_at`, leaves `last_crawled_at` at the value
produced by the first upsert; and a single upsert preserves every
existing field the partial record omits (for `last_crawled_at` this needs
the stored value not to be the degenerate empty string, which no write
path of the system ever produces — every stamp writes a full ISO
timestamp and the merge otherwise stores null or a previous stamp). -/
theorem c4_channel_upsert_merge (st : ChannelStore) (c : ChannelPartial) (cid : String)
    (hid : c.channel_id = some cid) (hne : cid ≠ "") (hlca : c.last_crawled_at = none) :
    (((storeChannel (storeChannel st c) c) cid).map ChannelRec.last_crawled_at
       = ((storeChannel st c) cid).map ChannelRec.last_crawled_at)
    ∧ ∀ e : ChannelRec, st cid = some e →
        (c.server_id = none →
          ((storeChannel st c) cid).map ChannelRec.server_id = some e.server_id)
        ∧ (c.channel_name = none →
          ((storeChannel st c) cid).map ChannelRec.channel_name = some e.channel_name)
        ∧ (e.last_crawled_at ≠ some "" →
          ((storeChannel st c) cid).map ChannelRec.last_crawled_at
            = some e.last_crawled_at) := by
  have hstore : ∀ s : ChannelStore, (storeChannel s c) cid = some (mergeChannel (s cid) cid c) := by
    intro s
    simp [storeChannel, hid, hne]
  constructor
  · rw [hstore, hstore]
    cases hst : st cid with
    | none => simp [mergeChannel, hlca, hst, jsTruthy]
    | some e =>
      cases hel : e.last_crawled_at with
      | none => simp [mergeChannel, hlca, hst, hel, jsTruthy]
      | some s =>
        by_cases hs : s = ""
        · simp [mergeChannel, hlca, hst, hel, jsTruthy, hs]
        · simp [mergeChannel, hlca, hst, hel, jsTruthy, hs]
  · intro e hst
    refine ⟨?_, ?_, ?_⟩
    · intro hsid
      rw [hstore]
      simp [mergeChannel, hsid, hst]
    · intro hname
      rw [hstore]
      simp [mergeChannel, hname, hst]
    · intro he
      rw [hstore]
      cases hel : e.last_crawled_at with
      | none => simp [mergeChannel, hlca, hst, hel, jsTruthy]
      | some s =>
        have hs : s ≠ "" := fun h => he (by rw [hel, h])
        simp [mergeChannel, hlca, hst, hel, jsTruthy, hs]

/-- Witness for C4: the concrete double upsert keeps `last_crawled_at`
and the omitted fields. -/
theorem c4_channel_upsert_merge_witness :
    (((storeChannel (storeChannel fixStore fixPartial) fixPartial) "111").map
        ChannelRec.last_crawled_at
      = ((storeChannel fixStore fixPartial) "111").map ChannelRec.last_crawled_at)
    ∧ ((storeChannel fixStore fixPartial) "111").map ChannelRec.server_id
        = some (some "900")
    ∧ ((storeChannel fixStore fixPartial) "111").map ChannelRec.channel_name
        = some (some "general")
    ∧ ((storeChannel fixStore fixPartial) "111").map ChannelRec.last_crawled_at
        = some (some "2023-01-01T00:00:00.000Z") := by
  have he : fixStore "111"
      = some { channel_id := "111", server_id := some "900",
               channel_name := some "general",
               last_crawled_at := some "2023-01-01T00:00:00.000Z" } := by decide
  have h := c4_channel_upsert_merge fixStore fixPartial "111" rfl (by decide) rfl
  exact ⟨h.1, (h.2 _ he).1 rfl, (h.2 _ he).2.1 rfl, (h.2 _ he).2.2 (by decide)⟩

/-- Claim C2: while a crawl is running and the scroll surface is present,
one scroll cycle increments the consecutive-no-growth counter exactly
when the step yields no new extracted messages (a no-op step at the top
yields none, so it increments too), resets it to zero on any growth, and
transitions the crawl to stopped exactly when the incremented counter has
reached the threshold 3 and the scroll position is within 10 pixels of
the top. -/
theorem c2_pagination_termination (s : ScrollState) (env : ScrollEnv)
    (hc : s.isCrawling = true) (hcont : env.containerPresent = true) :
    (env.afterCount = s.processedCount →
      (performScrollCycle s env).noNewMessagesCount = s.noNewMessagesCount + 1
      ∧ ((performScrollCycle s env).isCrawling = false ↔
          (3 ≤ s.noNewMessagesCount + 1 ∧ env.scrollTop ≤ 10)))
    ∧ (env.afterCount ≠ s.processedCount →
      (performScrollCycle s env).noNewMessagesCount = 0
      ∧ (performScrollCycle s env).isCrawling = true) := by
  refine ⟨fun h => ?_, fun h => ?_⟩
  · simp only [performScrollCycle, hc, hcont, h]
    by_cases hcond : 2 ≤ s.noNewMessagesCount ∧ env.scrollTop ≤ 10
    · simp [hcond]
    · simp [hcond]
      exact hc
  · simp [performScrollCycle, hc, hcont, h]

/-- Witness for C2: at counter 2 with the viewport at the top and no
growth, the cycle increments the counter to 3 and stops the crawl. -/
theorem c2_pagination_termination_witness :
    (performScrollCycle fixScrollS fixScrollE).noNewMessagesCount = 3
    ∧ (performScrollCycle fixScrollS fixScrollE).isCrawling = false := by
  have h := (c2_pagination_termination fixScrollS fixScrollE rfl rfl).1 rfl
  exact ⟨h.1, h.2.mpr (by decide)⟩

/-! ## Export helper lemmas -/

/-- A message that is malformed or has no surrogate channel mapping
leaves the message pass untouched. -/
theorem insertMsgStep_skip (chMap : List (String × Nat)) (m : MsgIn)
    (h : msgInsertable chMap m = false) (acc : List MessageRow × Nat) :
    insertMsgStep chMap acc m = acc := by
  by_cases h1 : jsTruthy m.message_id = true ∧ jsTruthy m.channel_id = true
  · have h2 : List.lookup (m.channel_id.getD "") chMap = none := by
      cases hl : List.lookup (m.channel_id.getD "") chMap with
      | none => rfl
      | some v =>
        exfalso
        simp [msgInsertable, h1.1, h1.2, hl] at h
    simp [insertMsgStep, h1, h2]
  · simp only [insertMsgStep]
    rw [if_neg (by simpa using h1)]

/-- One message-insert step never decreases the exported count. -/
theorem insertMsgStep_count_mono (chMap : List (String × Nat))
    (acc : List MessageRow × Nat) (m : MsgIn) :
    acc.2 ≤ (insertMsgStep chMap acc m).2 := by
  simp only [insertMsgStep]
  repeat' split
  all_goals omega

/-- The message pass never decreases the exported count. -/
theorem foldl_insertMsg_count_mono (chMap : List (String × Nat)) (msgs : List MsgIn) :
    ∀ acc, acc.2 ≤ (msgs.foldl (insertMsgStep chMap) acc).2 := by
  induction msgs with
  | nil => intro acc; simp
  | cons m rest ih =>
    intro acc
    exact le_trans (insertMsgStep_count_mono chMap acc m) (ih _)

/-- From the empty table, an insertable message always inserts (the
uniqueness constraint cannot fire). -/
theorem insertMsgStep_insert_empty (chMap : List (String × Nat)) (m : MsgIn)
    (h : msgInsertable chMap m = true) :
    0 < (insertMsgStep chMap ([], 0) m).2 := by
  simp only [msgInsertable, Bool.and_eq_true, Option.isSome_iff_exists] at h
  obtain ⟨⟨h1, h2⟩, chid, hl⟩ := h
  simp [insertMsgStep, h1, h2, hl]

/-- The message pass inserts nothing iff no message of the snapshot is
insertable. -/
theorem export_count_zero_iff (chMap : List (String × Nat)) (msgs : List MsgIn) :
    (msgs.foldl (insertMsgStep chMap) ([], 0)).2 = 0 ↔
      ∀ m ∈ msgs, msgInsertable chMap m = false := by
  induction msgs with
  | nil => simp
  | cons m rest ih =>
    by_cases hm : msgInsertable chMap m = true
    · constructor
      · intro h0
        exfalso
        have h1 := insertMsgStep_insert_empty chMap m hm
        have h2 := foldl_insertMsg_count_mono chMap rest (insertMsgStep chMap ([], 0) m)
        rw [List.foldl_cons] at h0
        omega
      · intro hall
        exact absurd (hall m (List.mem_cons_self m rest)) (by simp [hm])
    · have hm' : msgInsertable chMap m = false := by
        simpa using hm
      rw [List.foldl_cons, insertMsgStep_skip chMap m hm']
      constructor
      · intro h0 m' hmem
        rcases List.mem_cons.mp hmem with hEq | hmem'
        · rw [hEq]; exact hm'
        · exact ih.mp h0 m' hmem'
      · intro hall
        exact ih.mpr (fun x hx => hall x (List.mem_cons_of_mem m hx))

/-- Claim C6: the export fails exactly in the two advertised cases — the
upfront "no data" condition iff the snapshot has zero messages, and the
"nothing valid to export" condition iff the snapshot is non-empty yet
none of its messages is insertable (well-formed ids plus a surrogate
channel mapping); in every other case it returns the database. -/
theorem c6_export_failure_iff (d : Snapshot) :
    (exportDatabaseFromIndexedDB d = .error "No data to export" ↔ d.messages = [])
    ∧ (exportDatabaseFromIndexedDB d = .error "No valid messages could be exported" ↔
        (d.messages ≠ [] ∧ ∀ m ∈ d.messages, msgInsertable (exportChannelMap d) m = false))
    ∧ ((∃ db, exportDatabaseFromIndexedDB d = .ok db) ↔
        (∃ m ∈ d.messages, msgInsertable (exportChannelMap d) m = true)) := by
  have hmsg : ("No data to export" : String) ≠ "No valid messages could be exported" := by
    decide
  by_cases hemp : d.messages.isEmpty
  · have hnil : d.messages = [] := by simpa [List.isEmpty_iff] using hemp
    refine ⟨?_, ?_, ?_⟩
    · simp [exportDatabaseFromIndexedDB, hemp, hnil]
    · simp [exportDatabaseFromIndexedDB, hemp, hnil, hmsg]
    · simp [exportDatabaseFromIndexedDB, hemp, hnil]
  · have hne : d.messages ≠ [] := by
      intro h
      rw [h] at hemp
      simp at hemp
    by_cases hz : (d.messages.foldl (insertMsgStep (insertChannels d.channels).2) ([], 0)).2 = 0
    · have hval : exportDatabaseFromIndexedDB d
          = .error "No valid messages could be exported" := by
        simp [exportDatabaseFromIndexedDB, hemp, hz]
      refine ⟨?_, ?_, ?_⟩
      · rw [hval]
        constructor
        · intro h
          exact absurd (Except.error.inj h).symm hmsg
        · intro h
          exact absurd h hne
      · rw [hval]
        simp only [exportChannelMap]
        refine ⟨fun _ => ⟨hne, (export_count_zero_iff _ _).mp hz⟩, fun _ => ?_⟩
        trivial
      · rw [hval]
        constructor
        · rintro ⟨db, hdb⟩
          exact Except.noConfusion hdb
        · rintro ⟨m, hmem, hins⟩
          have h0 := (export_count_zero_iff (insertChannels d.channels).2 d.messages).mp hz m hmem
          rw [exportChannelMap] at hins
          rw [h0] at hins
          exact Bool.noConfusion hins
    · have hok : exportDatabaseFromIndexedDB d
          = .ok { channels := (insertChannels d.channels).1
                  users := d.users.foldl insertUserStep []
                  messages := (d.messages.foldl
                    (insertMsgStep (insertChannels d.channels).2) ([], 0)).1 } := by
        simp [exportDatabaseFromIndexedDB, hemp, hz]
      refine ⟨?_, ?_, ?_⟩
      · rw [hok]
        exact ⟨fun h => Except.noConfusion h, fun h => absurd h hne⟩
      · rw [hok]
        constructor
        · intro h
          exact Except.noConfusion h
        · rintro ⟨-, hall⟩
          exact absurd ((export_count_zero_iff _ _).mpr
            (by simpa [exportChannelMap] using hall)) hz
      · constructor
        · intro _
          by_contra hno
          push_neg at hno
          apply hz
          apply (export_count_zero_iff _ _).mpr
          intro m hmem
          have hx := hno m hmem
          simpa [exportChannelMap] using hx
        · intro _
          exact ⟨_, hok⟩

/-- Claim C5: on the described snapshot — 2 users, 1 well-formed channel,
3 messages one of which references a channel with no surrogate mapping —
the export succeeds with exactly 2 user rows, 1 channel row and 2 message
rows; and in general any message that is malformed or whose channel has
no surrogate mapping leaves the message pass exactly as if the message
were absent (skipped: not exported, and no error is raised since the
pass is total). -/
theorem c5_export_round_trip :
    ((exportDatabaseFromIndexedDB fixSnap).map
        (fun db => (db.users.length, db.channels.length, db.messages.length))
      = .ok (2, 1, 2))
    ∧ (∀ (chMap : List (String × Nat)) (pre post : List MsgIn) (m : MsgIn),
        msgInsertable chMap m = false →
        (pre ++ m :: post).foldl (insertMsgStep chMap) ([], 0)
          = (pre ++ post).foldl (insertMsgStep chMap) ([], 0)) := by
  constructor
  · rfl
  · intro chMap pre post m h
    rw [List.foldl_append, List.foldl_cons, insertMsgStep_skip chMap m h,
      ← List.foldl_append]

/-- Witness for C5: processing the orphaned message over the concrete
surrogate map equals processing the empty list. -/
theorem c5_export_round_trip_witness :
    List.foldl (insertMsgStep [("100", 1)]) ([], 0) [fixMsg3]
      = List.foldl (insertMsgStep [("100", 1)]) ([], 0) [] := by
  have h := c5_export_round_trip.2 [("100", 1)] [] [] fixMsg3 (by decide)
  simpa using h

/-- Witness for C6: the two failure conditions at concrete snapshots. -/
theorem c6_export_failure_iff_witness :
    exportDatabaseFromIndexedDB fixSnapEmpty = .error "No data to export"
    ∧ exportDatabaseFromIndexedDB fixSnapOrphan
        = .error "No valid messages could be exported" := by
  refine ⟨(c6_export_failure_iff fixSnapEmpty).1.mpr rfl, ?_⟩
  exact ((c6_export_failure_iff fixSnapOrphan).2.1).mpr ⟨by decide, by decide⟩

/-- A successful reaction extraction never carries count 0. -/
theorem reactOf_count_ne_zero (a : EmojiImg) (r : Reaction) (h : reactOf a = some r) :
    r.count ≠ 0 := by
  cases ha : a.dataName with
  | none => simp [reactOf, ha] at h
  | some nm =>
    by_cases hnm : nm = ""
    · simp [reactOf, ha, hnm] at h
    · by_cases hc : markerCount a = 0
      · simp [reactOf, ha, hnm, hc] at h
      · have hr : r = { emoji := nm, count := markerCount a } := by
          simp [reactOf, ha, hnm, hc] at h
          exact h.symm
        rw [hr]
        exact hc

/-- Claim C9: a detected reaction marker with name `em` whose rendered
count parses to the natural number `n` contributes the entry
`(em, n)` to the extracted reactions iff `n > 0`; in particular count 0
is excluded and count 1 appears as `(em, 1)`. -/
theorem c9_reaction_filtering (e : Element) (imgs : List EmojiImg) (img : EmojiImg)
    (em : String) (n : ℕ)
    (hR : e.reactionMarkers = some imgs) (hmem : img ∈ imgs)
    (hname : img.dataName = some em) (hem : em ≠ "")
    (hcount : markerCount img = (n : Int)) :
    (({ emoji := em, count := (n : Int) } : Reaction) ∈ extractReactions e ↔ 0 < n) := by
  constructor
  · intro hin
    simp only [extractReactions, hR] at hin
    rcases List.mem_filterMap.mp hin with ⟨a, _, hra⟩
    have h0 := reactOf_count_ne_zero a _ hra
    simp only [ne_eq] at h0
    by_contra hn
    have hn0 : n = 0 := by omega
    rw [hn0] at h0
    exact h0 rfl
  · intro hpos
    have hcne : markerCount img ≠ 0 := by
      rw [hcount]
      omega
    have hva : reactOf img = some { emoji := em, count := (n : Int) } := by
      simp [reactOf, hname, hem, hcne, hcount]
      omega
    simp only [extractReactions, hR]
    exact List.mem_filterMap.mpr ⟨img, hmem, hva⟩

/-- Witness for C9: over a concrete element with a count-0 marker and a
count-1 marker, the count-1 entry is present and the count-0 entry
absent. -/
theorem c9_reaction_filtering_witness :
    (({ emoji := "thumbsup", count := (1 : Int) } : Reaction) ∈ extractReactions fixReactElem)
    ∧ (({ emoji := "zero", count := (0 : Int) } : Reaction) ∉ extractReactions fixReactElem) := by
  constructor
  · exact (c9_reaction_filtering fixReactElem [fixEmojiZero, fixEmojiOne] fixEmojiOne
      "thumbsup" 1 rfl (by decide) rfl (by decide) (by decide)).mpr (by decide)
  · intro hin
    have h := (c9_reaction_filtering fixReactElem [fixEmojiZero, fixEmojiOne] fixEmojiZero
      "zero" 0 rfl (by decide) rfl (by decide) (by decide)).mp hin
    exact Nat.lt_irrefl 0 h

/-- Claim C8: within one session, two elements carrying the same message
id produce a non-null result at most for the first — the second parse
returns null — and elements that are not message-shaped (wrong tag, or
no usable id) are rejected with null. -/
theorem c8_session_dedup :
    (∀ (e1 e2 : Element) (ls ls2 : Option String) (pids : List String)
       (cid : Option String) (now : String) (mid : String),
       e1.tagName = "LI" → extractMessageId e1 = some mid → mid ∉ pids →
       extractMessageId e2 = some mid →
       (parseMessage e1 ls pids cid now).1.isSome = true
       ∧ (parseMessage e2 ls2 (parseMessage e1 ls pids cid now).2 cid now).1 = none)
    ∧ (∀ (e : Element) (ls : Option String) (pids : List String)
       (cid : Option String) (now : String),
       e.tagName ≠ "LI" ∨ extractMessageId e = none →
       (parseMessage e ls pids cid now).1 = none) := by
  constructor
  · intro e1 e2 ls ls2 pids cid now mid h1 h2 h3 h4
    have hp : (parseMessage e1 ls pids cid now).2 = mid :: pids := by
      simp [parseMessage, h1, h2, h3]
    refine ⟨by simp [parseMessage, h1, h2, h3], ?_⟩
    rw [hp]
    by_cases ht : e2.tagName = "LI"
    · simp [parseMessage, ht, h4]
    · simp [parseMessage, ht]
  · rintro e ls pids cid now (h | h) <;> simp [parseMessage, h]

/-- Witness for C8: the same concrete element parsed twice in a session
succeeds once then returns null, and a non-list-item element returns
null. -/
theorem c8_session_dedup_witness :
    (parseMessage fixElemDup none [] (some "100") "T").1.isSome = true
    ∧ (parseMessage fixElemDup none
        (parseMessage fixElemDup none [] (some "100") "T").2 (some "100") "T").1 = none
    ∧ (parseMessage fixElemNotLI none [] (some "100") "T").1 = none := by
  have h := c8_session_dedup.1 fixElemDup fixElemDup none none [] (some "100") "T" "300"
    rfl (by decide) (by decide) (by decide)
  exact ⟨h.1, h.2, c8_session_dedup.2 fixElemNotLI none [] (some "100") "T" (Or.inl (by decide))⟩

/-- Claim C7: a header-less element following a header-bearing element
whose avatar resolved to a (truthy) user id inherits that user id from
the accumulator; and a header-bearing element with no resolvable user id
yields a message with null `user_id` and leaves the accumulator
unchanged. -/
theorem c7_grouped_inheritance :
    (∀ (cid : Option String) (now : String) (e1 e2 : Element) (uid m1 m2 : String),
       e1.tagName = "LI" → extractMessageId e1 = some m1 →
       hasMessageHeader e1 = true → avatarUserId e1 = some uid → uid ≠ "" →
       e2.tagName = "LI" → extractMessageId e2 = some m2 → m2 ≠ m1 →
       hasMessageHeader e2 = false →
       (extractExistingMessages (some [e1, e2]) cid now).1.map MsgOut.user_id
         = [some uid, some uid])
    ∧ (∀ (cid : Option String) (now : String) (st : ExtractState) (e : Element) (mid : String),
       e.tagName = "LI" → extractMessageId e = some mid → mid ∉ st.pids →
       hasMessageHeader e = true → avatarUserId e = none →
       (extractStep cid now st e).lastSeenAuthorId = st.lastSeenAuthorId
       ∧ (extractStep cid now st e).messages.map MsgOut.user_id
           = st.messages.map MsgOut.user_id ++ [none]) := by
  constructor
  · intro cid now e1 e2 uid m1 m2 hT1 hI1 hH1 hA1 huid hT2 hI2 hne hH2
    simp [extractExistingMessages, extractStep, parseMessage,
      hT1, hI1, hH1, hA1, huid, hT2, hI2, hne, hH2, jsTruthy]
  · intro cid now st e mid hT hI hF hH hA
    constructor
    · simp [extractStep, parseMessage, hT, hI, hF, hH, hA, jsTruthy]
    · simp [extractStep, parseMessage, hT, hI, hF, hH, hA, jsTruthy]

/-- Witness for C7 at concrete elements: the grouped element inherits
user 42, and the unresolvable header-bearing element stores null and
keeps the accumulator. -/
theorem c7_grouped_inheritance_witness :
    (extractExistingMessages (some [fixElemHeader, fixElemGrouped]) (some "100") "T").1.map
        MsgOut.user_id = [some "42", some "42"]
    ∧ (extractStep (some "100") "T" fixExtractState fixElemNoResolve).lastSeenAuthorId
        = fixExtractState.lastSeenAuthorId
    ∧ (extractStep (some "100") "T" fixExtractState fixElemNoResolve).messages.map
        MsgOut.user_id = fixExtractState.messages.map MsgOut.user_id ++ [none] := by
  have h1 := c7_grouped_inheritance.1 (some "100") "T" fixElemHeader fixElemGrouped
    "42" "200" "201" rfl (by decide) (by decide) (by decide) (by decide)
    rfl (by decide) (by decide) (by decide)
  have h2 := c7_grouped_inheritance.2 (some "100") "T" fixExtractState fixElemNoResolve
    "202" rfl (by decide) (by decide) (by decide) (by decide)
  exact ⟨h1, h2.1, h2.2⟩

/-- Claim C10: an element whose non-empty DOM id does not match the
`chat-messages-{channel}-{message}` pattern is not rejected for that
reason — the full raw id becomes the stored `message_id` (so stored ids
are not guaranteed to be numeric host identifiers). -/
theorem c10_raw_id_fallback (e : Element) (s : String) (ls : Option String)
    (pids : List String) (cid : Option String) (now : String)
    (hAttr : e.idAttr = some s) (hs : s ≠ "") (hpat : chatMessagesId s = none) :
    extractMessageId e = some s
    ∧ (e.tagName = "LI" → s ∉ pids →
        (parseMessage e ls pids cid now).1.map (fun r => r.1.message_id) = some s) := by
  have hid : extractMessageId e = some s := by
    simp [extractMessageId, hAttr, hs, hpat]
  exact ⟨hid, fun hTag hF => by simp [parseMessage, hTag, hid, hF]⟩

/-- Witness for C10: a concrete non-matching id is stored raw. -/
theorem c10_raw_id_fallback_witness :
    extractMessageId fixElemRawId = some "some-random-id"
    ∧ (parseMessage fixElemRawId none [] (some "100") "T").1.map
        (fun r => r.1.message_id) = some "some-random-id" := by
  have h := c10_raw_id_fallback fixElemRawId "some-random-id" none [] (some "100") "T"
    rfl (by decide) (by decide)
  exact ⟨h.1, h.2 rfl (by decide)⟩

end CrawlerSpec
